import Mathlib

/-!
Verification of `src/autofuzz/alembic_fuzzer.cc`, a fuzzing harness that
writes the fuzz input to a temporary file, opens it with the Alembic
archive factory, and — when the archive is valid — walks the node tree
depth-first, printing diagnostic lines for each node.

The external Alembic library is modelled abstractly: every datum the
harness reads through the library interface (validity flag, archive name,
node headers, schema property lists, sample counts) is a field of the
model, and library calls may raise exceptions, modelled by `LibExn`.
Output is modelled as the list of strings passed to `std::cout`, one list
element per C++ output statement.
-/

/-- The sample-count and property data the harness reads from a mesh,
subdivision-surface, or curves schema (`IPolyMeshSchema`, `ISubDSchema`,
`ICurvesSchema`): the declared property headers (by name, in index
order), `getNumSamples()`, `getNormalsParam().getNumSamples()`,
`getUVsParam().getNumSamples()`, and the property names inside
`getArbGeomParams()`. -/
structure GeomSchema where
  propertyNames : List String
  numSamples : Nat
  normalsNumSamples : Nat
  uvsNumSamples : Nat
  arbGeomParamNames : List String

/-- Extra data read from an `ISubDSchema` by `printSubD`, each field the
printed form of the corresponding schema property. -/
structure SubDExtra where
  subdivisionScheme : String
  faceVaryingInterpolateBoundary : String
  faceVaryingPropagateCorners : String
  interpolateBoundary : String

/-- Data read from an `IFaceSetSchema`. -/
structure FaceSetSchema where
  numSamples : Nat

/-- Data read from an `IXformSchema`: `getNumSamples()` and `getNumOps()`. -/
structure XformSchema where
  numSamples : Nat
  numOps : Nat

/-- Interface of an `IMaterialSchema` as used by `printMaterial`:
`getShaderTypesForTarget` and the property count of
`getShaderParameters`. -/
structure MaterialSchema where
  shaderTypesForTarget : String → List String
  shaderParameterCount : String → String → Nat

/-- An `ObjectHeader`: name, full name, serialized metadata, and the
results of the six `matches(header)` type predicates the harness tests. -/
structure ObjectHeader where
  name : String
  fullName : String
  metaDataSerialized : String
  matchesPolyMesh : Bool
  matchesSubD : Bool
  matchesFaceSet : Bool
  matchesCurves : Bool
  matchesXform : Bool
  matchesMaterial : Bool

/-- The schema data reachable from one node, whichever kind the harness
classifies it as. -/
structure NodeData where
  mesh : GeomSchema
  subd : GeomSchema
  subdExtra : SubDExtra
  faceSet : FaceSetSchema
  curves : GeomSchema
  xform : XformSchema
  material : MaterialSchema

/-- An `IObject` node: its header, the schema data the library exposes
for it, and its children in index order (`getChild i` is element `i`). -/
inductive IObject where
  | node : ObjectHeader → NodeData → List IObject → IObject

/-- Inner loop of the `.arbGeomParams` branch shared by
`printMeshAttributes`, `printSubDAttributes`, `printCurvesAttributes`:
prints one line per property of the compound, indexed from `g`. -/
def arbGeomLoop : List String → Nat → List String
  | [], _ => []
  | n :: rest, g =>
      ("    arbGeomParam[" ++ toString g ++ "] name: " ++ n ++ "\n")
        :: arbGeomLoop rest (g + 1)

/-- The lines `printMeshAttributes` prints for one property after its
name line: the if/else chain over the property name (source lines
64-87). -/
def meshPropExtras (s : GeomSchema) (name : String) : List String :=
  if name = "P" then
    ["    Sample Count: " ++ toString s.numSamples ++ "\n"]
  else if name = "N" then
    ["    Sample Count: " ++ toString s.normalsNumSamples ++ "\n"]
  else if name = "uv" || name = "st" then
    ["    Sample Count: " ++ toString s.uvsNumSamples ++ "\n"]
  else if name = ".arbGeomParams" then
    ("    GeomParams Count: " ++ toString s.arbGeomParamNames.length ++ ".\n")
      :: arbGeomLoop s.arbGeomParamNames 0
  else []

/-- One iteration of the property loop of `printMeshAttributes`:
the name line followed by the name-dependent extra lines. -/
def meshPropEntry (s : GeomSchema) (p : Nat) (name : String) : List String :=
  ("  Property[" ++ toString p ++ "] name: " ++ name ++ "\n")
    :: meshPropExtras s name

/-- The property loop of `printMeshAttributes`, indexed from `p`. -/
def meshPropLoop (s : GeomSchema) : List String → Nat → List String
  | [], _ => []
  | n :: rest, p => meshPropEntry s p n ++ meshPropLoop s rest (p + 1)

/-- `printMeshAttributes` (source lines 53-89). -/
def printMeshAttributes (s : GeomSchema) : List String :=
  ("  Mesh Property Count: " ++ toString s.propertyNames.length ++ ".\n")
    :: meshPropLoop s s.propertyNames 0

/-- The lines `printSubDAttributes` prints for one property after its
name line (source lines 102-122). Unlike the mesh and curves versions
there is no branch for the name "N". -/
def subdPropExtras (s : GeomSchema) (name : String) : List String :=
  if name = "P" then
    ["    Sample Count: " ++ toString s.numSamples ++ "\n"]
  else if name = "uv" || name = "st" then
    ["    Sample Count: " ++ toString s.uvsNumSamples ++ "\n"]
  else if name = ".arbGeomParams" then
    ("    GeomParams Count: " ++ toString s.arbGeomParamNames.length ++ ".\n")
      :: arbGeomLoop s.arbGeomParamNames 0
  else []

/-- One iteration of the property loop of `printSubDAttributes`. -/
def subdPropEntry (s : GeomSchema) (p : Nat) (name : String) : List String :=
  ("  Property[" ++ toString p ++ "] name: " ++ name ++ "\n")
    :: subdPropExtras s name

/-- The property loop of `printSubDAttributes`, indexed from `p`. -/
def subdPropLoop (s : GeomSchema) : List String → Nat → List String
  | [], _ => []
  | n :: rest, p => subdPropEntry s p n ++ subdPropLoop s rest (p + 1)

/-- `printSubDAttributes` (source lines 91-124). -/
def printSubDAttributes (s : GeomSchema) : List String :=
  ("  SubD Property Count: " ++ toString s.propertyNames.length ++ ".\n")
    :: subdPropLoop s s.propertyNames 0

/-- The lines `printCurvesAttributes` prints for one property after its
name line (source lines 137-160). -/
def curvesPropExtras (s : GeomSchema) (name : String) : List String :=
  if name = "P" then
    ["    Sample Count: " ++ toString s.numSamples ++ "\n"]
  else if name = "N" then
    ["    Sample Count: " ++ toString s.normalsNumSamples ++ "\n"]
  else if name = "uv" || name = "st" then
    ["    Sample Count: " ++ toString s.uvsNumSamples ++ "\n"]
  else if name = ".arbGeomParams" then
    ("    GeomParams Count: " ++ toString s.arbGeomParamNames.length ++ ".\n")
      :: arbGeomLoop s.arbGeomParamNames 0
  else []

/-- One iteration of the property loop of `printCurvesAttributes`. -/
def curvesPropEntry (s : GeomSchema) (p : Nat) (name : String) : List String :=
  ("  Property[" ++ toString p ++ "] name: " ++ name ++ "\n")
    :: curvesPropExtras s name

/-- The property loop of `printCurvesAttributes`, indexed from `p`. -/
def curvesPropLoop (s : GeomSchema) : List String → Nat → List String
  | [], _ => []
  | n :: rest, p => curvesPropEntry s p n ++ curvesPropLoop s rest (p + 1)

/-- `printCurvesAttributes` (source lines 126-162). -/
def printCurvesAttributes (s : GeomSchema) : List String :=
  ("  Curves Property Count: " ++ toString s.propertyNames.length ++ ".\n")
    :: curvesPropLoop s s.propertyNames 0

/-- `printPolyMesh` (source lines 164-171): builds the mesh schema of
the node and prints its attributes. -/
def printPolyMesh (d : NodeData) : List String :=
  printMeshAttributes d.mesh

/-- `printSubD` (source lines 173-187). -/
def printSubD (d : NodeData) : List String :=
  printSubDAttributes d.subd ++
    ["  Subdivision Scheme: " ++ d.subdExtra.subdivisionScheme ++ "\n",
     "  Face Varying Interpolate Boundary: "
       ++ d.subdExtra.faceVaryingInterpolateBoundary ++ "\n",
     "  Face Varying Propagate Corners: "
       ++ d.subdExtra.faceVaryingPropagateCorners ++ "\n",
     "  Interpolate Boundary: " ++ d.subdExtra.interpolateBoundary ++ "\n"]

/-- `printFaceSet` (source lines 189-195). -/
def printFaceSet (d : NodeData) : List String :=
  ["  Sample Count: " ++ toString d.faceSet.numSamples ++ "\n"]

/-- `printCurves` (source lines 197-203). -/
def printCurves (d : NodeData) : List String :=
  printCurvesAttributes d.curves

/-- `printXform` (source lines 205-212). -/
def printXform (d : NodeData) : List String :=
  ["  Sample Count: " ++ toString d.xform.numSamples ++ "\n",
   "  Number of Ops: " ++ toString d.xform.numOps ++ "\n"]

/-- Inner shader-type loop of `printMaterial` (source lines 230-241). -/
def materialShaderLoop (m : MaterialSchema) (target : String) :
    List String → Nat → List String
  | [], _ => []
  | st :: rest, s =>
      ("    Shader Type [" ++ toString s ++ "] name: " ++ st ++ "\n")
        :: ("    Shader Parameter Count: "
              ++ toString (m.shaderParameterCount target st) ++ "\n")
        :: materialShaderLoop m target rest (s + 1)

/-- Target loop of `printMaterial` (source lines 223-242). -/
def materialTargetLoop (m : MaterialSchema) : List String → Nat → List String
  | [], _ => []
  | t :: rest, i =>
      ("  Target[" ++ toString i ++ "] name: " ++ t ++ "\n")
        :: (("    Shader Type Count: "
               ++ toString (m.shaderTypesForTarget t).length ++ "\n")
            :: materialShaderLoop m t (m.shaderTypesForTarget t) 0)
        ++ materialTargetLoop m rest (i + 1)

/-- `printMaterial` (source lines 214-243): `targetNames` is a local
vector that is declared empty and never filled before its size is taken. -/
def printMaterial (d : NodeData) : List String :=
  let targetNames : List String := []
  let targetCount := targetNames.length
  ("  Target Count: " ++ toString targetCount ++ "\n")
    :: materialTargetLoop d.material targetNames 0

/-- The three general-information lines `printNodes` prints for every
node before the type dispatch (source lines 248-250). -/
def nodeHeaderLines (h : ObjectHeader) : List String :=
  ["Node name: " ++ h.name ++ "\n",
   "Node full name: " ++ h.fullName ++ "\n",
   "MetaData: " ++ h.metaDataSerialized ++ "\n"]

/-- The type-specific dispatch chain of `printNodes` (source lines
253-267): the six `matches` tests in source order, first match wins,
with the generic fallback line. -/
def kindDispatch (h : ObjectHeader) (d : NodeData) : List String :=
  if h.matchesPolyMesh then printPolyMesh d
  else if h.matchesSubD then printSubD d
  else if h.matchesFaceSet then printFaceSet d
  else if h.matchesCurves then printCurves d
  else if h.matchesXform then printXform d
  else if h.matchesMaterial then printMaterial d
  else ["Object type ignored.\n"]

/-- The lines `printNodes` prints for the node itself, before the child
loop. -/
def nodeBlock (h : ObjectHeader) (d : NodeData) : List String :=
  nodeHeaderLines h ++ kindDispatch h d

mutual

/-- `printNodes` (source lines 245-274): node block, then the child loop
`for i in 0 ..< childCount: printNodes (getChild i)`. -/
def printNodes : IObject → List String
  | .node h d ch => nodeBlock h d ++ printChildren ch

/-- The child loop of `printNodes`, consuming the children in index
order. -/
def printChildren : List IObject → List String
  | [] => []
  | c :: cs => printNodes c ++ printChildren cs

end

/-- An exception thrown by the Alembic library: either an object derived
from `std::exception` carrying a `what()` message, or a thrown object of
any other type. -/
inductive LibExn where
  | stdExn : String → LibExn
  | otherExn : LibExn
deriving DecidableEq

/-- The archive handle the factory returns: validity flag, archive name,
and top node. -/
structure Archive where
  valid : Bool
  name : String
  top : IObject

/-- The behaviour of the environment and the library during one harness
invocation: the result of `buf_to_file` (`none` models `NULL`), the
result of `factory.getArchive` (which may throw), an exception the
library optionally raises during the traversal of a valid archive, and
whether `delete_file` returns 0. -/
structure World where
  bufToFile : Option String
  openResult : Except LibExn Archive
  travThrow : Option LibExn
  deleteOk : Bool

/-- `printInfo` (source lines 276-289), returning the lines it printed
and the library exception that escaped it, if any. A traversal throw
aborts after the name line; the traversal lines already printed at the
abstract throw point are not modelled. -/
def printInfoRun (w : World) (file : String) : List String × Option LibExn :=
  match w.openResult with
  | .error e => ([], some e)
  | .ok ar =>
      let line1 := "\nfile " ++ file
        ++ (if ar.valid then "" else " (invalid)") ++ ":\n\n"
      if ar.valid then
        match w.travThrow with
        | some e => ([line1, "file name: " ++ ar.name ++ "\n"], some e)
        | none =>
            ([line1, "file name: " ++ ar.name ++ "\n"] ++ printNodes ar.top,
             none)
      else ([line1], none)

/-- How one invocation of `LLVMFuzzerTestOneInput` ends: a normal return
with a status code, a process termination via `exit`, or an exception
propagating out of the function uncaught. -/
inductive Outcome where
  | returns : Nat → Outcome
  | procExit : Nat → Outcome
  | uncaught : Outcome
deriving DecidableEq

/-- Observable events of one invocation, in order. -/
inductive Event where
  | ignoredStdout : Event
  | createdTemp : String → Event
  | printed : String → Event
  | deletedTemp : String → Bool → Event
deriving DecidableEq

def exitSuccess : Nat := 0

def exitFailure : Nat := 1

/-- The `delete_file` call and return of `LLVMFuzzerTestOneInput`
(source lines 310-314), reached when the try block completed or its
exception was caught. -/
def afterTry (w : World) (file : String) (evs : List Event) :
    Outcome × List Event :=
  if w.deleteOk then
    (.returns exitSuccess, evs ++ [.deletedTemp file true])
  else
    (.procExit exitFailure, evs ++ [.deletedTemp file false])

/-- The try/catch block of `LLVMFuzzerTestOneInput` (source lines
304-308) followed by the delete: `catch (const std::exception& e)`
prints `e.what()` and falls through to the delete; a thrown object not
derived from `std::exception` propagates, skipping the delete. -/
def tryBody (w : World) (file : String) : Outcome × List Event :=
  match printInfoRun w file with
  | (out, none) => afterTry w file (out.map Event.printed)
  | (out, some (.stdExn msg)) =>
      afterTry w file (out.map Event.printed ++ [Event.printed (msg ++ "\n")])
  | (out, some .otherExn) => (.uncaught, out.map Event.printed)

/-- `LLVMFuzzerTestOneInput` (source lines 293-315) over the process
flag `initDone` (the static `initialized` of source line 291): returns
the outcome, the event trace, and the new flag value. -/
def testOneInput (w : World) (initDone : Bool) :
    Outcome × List Event × Bool :=
  let initEvs : List Event := if initDone then [] else [.ignoredStdout]
  match w.bufToFile with
  | none => (.procExit exitFailure, initEvs, true)
  | some file =>
      let r := tryBody w file
      (r.1, initEvs ++ Event.createdTemp file :: r.2, true)

/-- The kinds `printNodes` can classify a node as. -/
inductive NodeKind where
  | mesh | subd | faceSet | curves | xform | material
deriving DecidableEq

/-- The header predicate tested for each kind. -/
def matchesKind (h : ObjectHeader) : NodeKind → Bool
  | .mesh => h.matchesPolyMesh
  | .subd => h.matchesSubD
  | .faceSet => h.matchesFaceSet
  | .curves => h.matchesCurves
  | .xform => h.matchesXform
  | .material => h.matchesMaterial

/-- The fixed priority order of the dispatch: mesh, subdivision surface,
face set, curve, transform, material. -/
def kindPriority : List NodeKind :=
  [.mesh, .subd, .faceSet, .curves, .xform, .material]

/-- The kind-specific report function of each kind. -/
def kindReport (d : NodeData) : NodeKind → List String
  | .mesh => printPolyMesh d
  | .subd => printSubD d
  | .faceSet => printFaceSet d
  | .curves => printCurves d
  | .xform => printXform d
  | .material => printMaterial d

/-- The lines printed during an invocation, in order, extracted from the
event trace. -/
def printedOf (evs : List Event) : List String :=
  evs.filterMap fun e =>
    match e with
    | .printed l => some l
    | _ => none

/-- Whether an event is a `delete_file` call. -/
def isDeleteEvent : Event → Bool
  | .deletedTemp _ _ => true
  | _ => false

/-- Number of `delete_file` calls in a trace. -/
def deleteCount (evs : List Event) : Nat :=
  (evs.filter isDeleteEvent).length

theorem printChildren_eq_flatten (cs : List IObject) :
    printChildren cs = (cs.map printNodes).flatten := by
  induction cs with
  | nil => simp [printChildren]
  | cons c cs ih => simp [printChildren, ih]

/-- C3: for every visited node, the header is tested against the known
kinds in the fixed priority order mesh, subdivision surface, face set,
curve, transform, material; the first matching kind's report, and only
that one, is printed; if no kind matches, the generic
"Object type ignored." line is printed instead. -/
theorem dispatch_first_match_priority (h : ObjectHeader) (d : NodeData)
    (ch : List IObject) :
    printNodes (.node h d ch) =
      nodeHeaderLines h ++
        ((match kindPriority.find? (matchesKind h) with
          | some k => kindReport d k
          | none => ["Object type ignored.\n"]) ++ printChildren ch) := by
  obtain ⟨n, fn, md, m1, m2, m3, m4, m5, m6⟩ := h
  cases m1 <;> cases m2 <;> cases m3 <;> cases m4 <;> cases m5 <;> cases m6 <;>
    simp [printNodes, nodeBlock, kindDispatch, kindPriority, matchesKind,
      kindReport, nodeHeaderLines, List.find?]

/-- C4: the traversal is depth-first pre-order: the node's name, full
path, metadata and kind-specific report come before all lines of its
children, the children are visited in increasing index order, and the
recursion happens for every node, whatever its header matches. -/
theorem printNodes_preorder (h : ObjectHeader) (d : NodeData)
    (ch : List IObject) :
    printNodes (.node h d ch) =
      (nodeHeaderLines h ++ kindDispatch h d) ++ (ch.map printNodes).flatten := by
  simp [printNodes, nodeBlock, printChildren_eq_flatten]

/-- C7: for every node classified as a material, the report prints a
target count of zero and nothing further: the per-target loop runs over
the local, never-populated target-name vector, so it contributes no
lines. -/
theorem material_report_empty (d : NodeData) :
    printMaterial d = ["  Target Count: 0\n"] := rfl

/-- The property names that get extra derived-count lines in the mesh
and curves reports. -/
def wellKnownGeomNames : List String := ["P", "N", "uv", "st", ".arbGeomParams"]

/-- The property names that get extra derived-count lines in the
subdivision-surface report. -/
def wellKnownSubDNames : List String := ["P", "uv", "st", ".arbGeomParams"]

theorem meshPropLoop_name_mem (s : GeomSchema) :
    ∀ (names : List String) (p i : Nat) (hi : i < names.length),
      ("  Property[" ++ toString (p + i) ++ "] name: "
          ++ names.get ⟨i, hi⟩ ++ "\n") ∈ meshPropLoop s names p := by
  intro names
  induction names with
  | nil => intro p i hi; simp at hi
  | cons n rest ih =>
      intro p i hi
      cases i with
      | zero => simp [meshPropLoop, meshPropEntry]
      | succ j =>
          have hj : j < rest.length := by simpa using hi
          have hmem := ih (p + 1) j hj
          have harith : p + (j + 1) = (p + 1) + j := by omega
          rw [harith]
          simp only [meshPropLoop, List.mem_append, List.get]
          exact Or.inr hmem

theorem subdPropLoop_name_mem (s : GeomSchema) :
    ∀ (names : List String) (p i : Nat) (hi : i < names.length),
      ("  Property[" ++ toString (p + i) ++ "] name: "
          ++ names.get ⟨i, hi⟩ ++ "\n") ∈ subdPropLoop s names p := by
  intro names
  induction names with
  | nil => intro p i hi; simp at hi
  | cons n rest ih =>
      intro p i hi
      cases i with
      | zero => simp [subdPropLoop, subdPropEntry]
      | succ j =>
          have hj : j < rest.length := by simpa using hi
          have hmem := ih (p + 1) j hj
          have harith : p + (j + 1) = (p + 1) + j := by omega
          rw [harith]
          simp only [subdPropLoop, List.mem_append, List.get]
          exact Or.inr hmem

theorem curvesPropLoop_name_mem (s : GeomSchema) :
    ∀ (names : List String) (p i : Nat) (hi : i < names.length),
      ("  Property[" ++ toString (p + i) ++ "] name: "
          ++ names.get ⟨i, hi⟩ ++ "\n") ∈ curvesPropLoop s names p := by
  intro names
  induction names with
  | nil => intro p i hi; simp at hi
  | cons n rest ih =>
      intro p i hi
      cases i with
      | zero => simp [curvesPropLoop, curvesPropEntry]
      | succ j =>
          have hj : j < rest.length := by simpa using hi
          have hmem := ih (p + 1) j hj
          have harith : p + (j + 1) = (p + 1) + j := by omega
          rw [harith]
          simp only [curvesPropLoop, List.mem_append, List.get]
          exact Or.inr hmem

theorem meshPropExtras_ne_nil_iff (s : GeomSchema) (name : String) :
    meshPropExtras s name ≠ [] ↔ name ∈ wellKnownGeomNames := by
  unfold meshPropExtras wellKnownGeomNames
  by_cases h1 : name = "P" <;> by_cases h2 : name = "N" <;>
    by_cases h3 : name = "uv" <;> by_cases h4 : name = "st" <;>
    by_cases h5 : name = ".arbGeomParams" <;>
    simp [h1, h2, h3, h4, h5]

theorem subdPropExtras_ne_nil_iff (s : GeomSchema) (name : String) :
    subdPropExtras s name ≠ [] ↔ name ∈ wellKnownSubDNames := by
  unfold subdPropExtras wellKnownSubDNames
  by_cases h1 : name = "P" <;> by_cases h3 : name = "uv" <;>
    by_cases h4 : name = "st" <;> by_cases h5 : name = ".arbGeomParams" <;>
    simp [h1, h3, h4, h5]

theorem curvesPropExtras_ne_nil_iff (s : GeomSchema) (name : String) :
    curvesPropExtras s name ≠ [] ↔ name ∈ wellKnownGeomNames := by
  unfold curvesPropExtras wellKnownGeomNames
  by_cases h1 : name = "P" <;> by_cases h2 : name = "N" <;>
    by_cases h3 : name = "uv" <;> by_cases h4 : name = "st" <;>
    by_cases h5 : name = ".arbGeomParams" <;>
    simp [h1, h2, h3, h4, h5]

/-- C5 counterexample: on a subdivision surface a property named "N"
gets no derived sample count — `printSubDAttributes` has no branch for
"N" (unlike `printMeshAttributes` and `printCurvesAttributes`), so the
output for a SubD schema whose only property is "N" consists of the
count line and the name line alone. -/
theorem subd_normals_no_sample_count :
    printSubDAttributes ⟨["N"], 3, 7, 11, []⟩ =
      ["  SubD Property Count: 1.\n", "  Property[0] name: N\n"] ∧
    subdPropExtras ⟨["N"], 3, 7, 11, []⟩ "N" = [] :=
  ⟨rfl, rfl⟩

/-- C5 amended: the mesh, subdivision-surface and curves reports list
every declared property's name; the names that additionally get derived
count lines are exactly "P", "N", "uv", "st", ".arbGeomParams" for
meshes and curves, but only "P", "uv", "st", ".arbGeomParams" for
subdivision surfaces ("N" is listed by name only there); the extra
lines are the derived sample counts (and the `.arbGeomParams` group
count), and every other property is listed by name only. -/
theorem geom_property_reporting (s : GeomSchema) (i : Nat)
    (hi : i < s.propertyNames.length) (name : String) :
    (("  Property[" ++ toString i ++ "] name: "
        ++ s.propertyNames.get ⟨i, hi⟩ ++ "\n") ∈ printMeshAttributes s
      ∧ ("  Property[" ++ toString i ++ "] name: "
        ++ s.propertyNames.get ⟨i, hi⟩ ++ "\n") ∈ printSubDAttributes s
      ∧ ("  Property[" ++ toString i ++ "] name: "
        ++ s.propertyNames.get ⟨i, hi⟩ ++ "\n") ∈ printCurvesAttributes s)
    ∧ (meshPropExtras s name ≠ [] ↔ name ∈ wellKnownGeomNames)
    ∧ (subdPropExtras s name ≠ [] ↔ name ∈ wellKnownSubDNames)
    ∧ (curvesPropExtras s name ≠ [] ↔ name ∈ wellKnownGeomNames)
    ∧ meshPropExtras s "P" = ["    Sample Count: " ++ toString s.numSamples ++ "\n"]
    ∧ meshPropExtras s "N" =
        ["    Sample Count: " ++ toString s.normalsNumSamples ++ "\n"]
    ∧ meshPropExtras s "uv" =
        ["    Sample Count: " ++ toString s.uvsNumSamples ++ "\n"]
    ∧ meshPropExtras s "st" =
        ["    Sample Count: " ++ toString s.uvsNumSamples ++ "\n"]
    ∧ subdPropExtras s "N" = [] := by
  refine ⟨⟨?_, ?_, ?_⟩, meshPropExtras_ne_nil_iff s name,
    subdPropExtras_ne_nil_iff s name, curvesPropExtras_ne_nil_iff s name,
    rfl, rfl, rfl, rfl, rfl⟩
  · exact List.mem_cons_of_mem _
      (by simpa using meshPropLoop_name_mem s s.propertyNames 0 i hi)
  · exact List.mem_cons_of_mem _
      (by simpa using subdPropLoop_name_mem s s.propertyNames 0 i hi)
  · exact List.mem_cons_of_mem _
      (by simpa using curvesPropLoop_name_mem s s.propertyNames 0 i hi)

/-- Witness for the amended C5 theorem at a concrete schema. -/
theorem geom_property_reporting_witness :
    "  Property[0] name: P\n" ∈ printMeshAttributes ⟨["P"], 1, 2, 3, []⟩ ∧
    (meshPropExtras ⟨["P"], 1, 2, 3, []⟩ "Q" ≠ [] ↔ "Q" ∈ wellKnownGeomNames) :=
  ⟨(geom_property_reporting ⟨["P"], 1, 2, 3, []⟩ 0 (by decide) "Q").1.1,
   (geom_property_reporting ⟨["P"], 1, 2, 3, []⟩ 0 (by decide) "Q").2.1⟩

/-- C6: if the factory reports the archive invalid, the output is the
single file line carrying the " (invalid)" marker: no archive-name line
and no node lines are printed, and no exception escapes. -/
theorem invalid_archive_no_traversal (w : World) (file : String) (ar : Archive)
    (ho : w.openResult = .ok ar) (hv : ar.valid = false) :
    printInfoRun w file =
      (["\nfile " ++ file ++ " (invalid)" ++ ":\n\n"], none) := by
  simp [printInfoRun, ho, hv]

/-- A geometry schema with no properties, used for concrete worlds. -/
def emptyGeom : GeomSchema := ⟨[], 0, 0, 0, []⟩

/-- A material schema answering every query trivially, used for
concrete worlds. -/
def emptyMaterial : MaterialSchema := ⟨fun _ => [], fun _ _ => 0⟩

/-- Node data for a transform node with 2 samples and 3 ops. -/
def xformData : NodeData :=
  ⟨emptyGeom, emptyGeom, ⟨"s", "fb", "pc", "ib"⟩, ⟨0⟩, emptyGeom, ⟨2, 3⟩,
   emptyMaterial⟩

/-- A header matching only the transform kind. -/
def xformHeader : ObjectHeader :=
  ⟨"x", "/x", "meta", false, false, false, false, true, false⟩

/-- An archive the factory reports invalid. -/
def invalidArchive : Archive :=
  ⟨false, "arch", .node xformHeader xformData []⟩

/-- World whose open succeeds on an invalid archive. -/
def invalidWorld : World := ⟨some "f.abc", .ok invalidArchive, none, true⟩

/-- Witness for the C6 theorem at a concrete world. -/
theorem invalid_archive_no_traversal_witness :
    printInfoRun invalidWorld "f.abc" =
      (["\nfile " ++ "f.abc" ++ " (invalid)" ++ ":\n\n"], none) :=
  invalid_archive_no_traversal invalidWorld "f.abc" invalidArchive rfl rfl

/-- C9: for a valid archive whose top is a single transform node with
zero children, the inspection prints the file line, the archive-name
line, and exactly one node block reporting the transform's sample count
and operation count; nothing follows, so no further recursion happens. -/
theorem single_xform_inspection (w : World) (file : String) (ar : Archive)
    (h : ObjectHeader) (d : NodeData)
    (ho : w.openResult = .ok ar) (hv : ar.valid = true)
    (ht : w.travThrow = none) (htop : ar.top = .node h d [])
    (h1 : h.matchesPolyMesh = false) (h2 : h.matchesSubD = false)
    (h3 : h.matchesFaceSet = false) (h4 : h.matchesCurves = false)
    (h5 : h.matchesXform = true) :
    printInfoRun w file =
      (["\nfile " ++ file ++ "" ++ ":\n\n",
        "file name: " ++ ar.name ++ "\n",
        "Node name: " ++ h.name ++ "\n",
        "Node full name: " ++ h.fullName ++ "\n",
        "MetaData: " ++ h.metaDataSerialized ++ "\n",
        "  Sample Count: " ++ toString d.xform.numSamples ++ "\n",
        "  Number of Ops: " ++ toString d.xform.numOps ++ "\n"], none) := by
  simp [printInfoRun, ho, hv, ht, htop, printNodes, nodeBlock, nodeHeaderLines,
    kindDispatch, h1, h2, h3, h4, h5, printXform, printChildren]

/-- A valid archive holding exactly one transform node with no
children. -/
def singleXformArchive : Archive :=
  ⟨true, "arch", .node xformHeader xformData []⟩

/-- World whose open succeeds on the single-transform archive. -/
def singleXformWorld : World :=
  ⟨some "f.abc", .ok singleXformArchive, none, true⟩

/-- Witness for the C9 theorem at a concrete world. -/
theorem single_xform_inspection_witness :
    printInfoRun singleXformWorld "f.abc" =
      (["\nfile f.abc:\n\n", "file name: arch\n", "Node name: x\n",
        "Node full name: /x\n", "MetaData: meta\n", "  Sample Count: 2\n",
        "  Number of Ops: 3\n"], none) :=
  single_xform_inspection singleXformWorld "f.abc" singleXformArchive
    xformHeader xformData rfl rfl rfl rfl rfl rfl rfl rfl rfl

theorem filter_isDelete_printed (out : List String) :
    (out.map Event.printed).filter isDeleteEvent = [] := by
  induction out with
  | nil => rfl
  | cons a rest ih => simp [isDeleteEvent, ih]

/-- C1 amended: whenever the invocation returns (success path, invalid
archive, or a caught `std::exception`), the temporary file is deleted
exactly once, successfully, and the return code is success. -/
theorem temp_file_deleted_once_on_return (w : World) (s : Bool)
    (file : String) (code : Nat) (hf : w.bufToFile = some file)
    (hr : (testOneInput w s).1 = .returns code) :
    code = exitSuccess ∧
    deleteCount (testOneInput w s).2.1 = 1 ∧
    Event.deletedTemp file true ∈ (testOneInput w s).2.1 := by
  rcases hpr : printInfoRun w file with ⟨out, _ | (msg | _)⟩ <;>
    cases hdel : w.deleteOk <;> cases s <;>
      simp_all [testOneInput, hf, tryBody, hpr, afterTry, deleteCount,
        List.filter_append, filter_isDelete_printed, isDeleteEvent,
        exitSuccess, exitFailure]

/-- Witness for the amended C1 theorem at a concrete world. -/
theorem temp_file_deleted_once_on_return_witness :
    exitSuccess = exitSuccess ∧
    deleteCount (testOneInput singleXformWorld false).2.1 = 1 ∧
    Event.deletedTemp "f.abc" true ∈ (testOneInput singleXformWorld false).2.1 :=
  temp_file_deleted_once_on_return singleXformWorld false "f.abc" exitSuccess
    rfl rfl

/-- World in which the library throws a non-`std::exception` object
while opening the archive. -/
def foreignExnWorld : World := ⟨some "t.abc", .error .otherExn, none, true⟩

/-- C1 counterexample: when the library throws an object not derived
from `std::exception` during opening, the invocation ends with the
exception propagating uncaught, `delete_file` is never called, and the
created temporary file is left behind. -/
theorem temp_file_leaked_on_foreign_exn :
    (testOneInput foreignExnWorld false).1 = .uncaught ∧
    deleteCount (testOneInput foreignExnWorld false).2.1 = 0 ∧
    Event.createdTemp "t.abc" ∈ (testOneInput foreignExnWorld false).2.1 := by
  decide

/-- C2 counterexample: an exception not derived from `std::exception`
raised while opening the archive is not caught and the invocation does
not return with a success status. -/
theorem foreign_exn_uncaught_counterexample :
    (testOneInput ⟨some "u.abc", Except.error .otherExn, none, true⟩ false).1 =
        Outcome.uncaught ∧
    Outcome.uncaught ≠ Outcome.returns exitSuccess := by
  decide

/-- C2 amended: an exception derived from `std::exception` raised by the
library while opening or traversing the archive is caught at the
outermost scope, its message is printed, and the invocation returns with
a success status; failure to create the temporary file, and failure to
delete it, each terminate the process with a failure status. -/
theorem error_handling_classes (w : World) (s : Bool) :
    (∀ file msg, w.bufToFile = some file →
        w.openResult = .error (.stdExn msg) → w.deleteOk = true →
        (testOneInput w s).1 = .returns exitSuccess ∧
        Event.printed (msg ++ "\n") ∈ (testOneInput w s).2.1) ∧
    (∀ file msg ar, w.bufToFile = some file → w.openResult = .ok ar →
        ar.valid = true → w.travThrow = some (.stdExn msg) →
        w.deleteOk = true →
        (testOneInput w s).1 = .returns exitSuccess ∧
        Event.printed (msg ++ "\n") ∈ (testOneInput w s).2.1) ∧
    (w.bufToFile = none → (testOneInput w s).1 = .procExit exitFailure) ∧
    (∀ file ar, w.bufToFile = some file → w.openResult = .ok ar →
        ar.valid = true → w.travThrow = none → w.deleteOk = false →
        (testOneInput w s).1 = .procExit exitFailure) := by
  refine ⟨?_, ?_, ?_, ?_⟩
  · intro file msg hf ho hd
    cases s <;> simp [testOneInput, hf, tryBody, printInfoRun, ho, afterTry, hd]
  · intro file msg ar hf ho hv ht hd
    cases s <;>
      simp [testOneInput, hf, tryBody, printInfoRun, ho, hv, ht, afterTry, hd]
  · intro hf
    cases s <;> simp [testOneInput, hf]
  · intro file ar hf ho hv ht hd
    cases s <;>
      simp [testOneInput, hf, tryBody, printInfoRun, ho, hv, ht, afterTry, hd]

/-- World in which the temporary file cannot be created. -/
def nullFileWorld : World := ⟨none, .error .otherExn, none, true⟩

/-- World in which the library throws a `std::exception` while opening. -/
def stdExnWorld : World := ⟨some "e.abc", .error (.stdExn "boom"), none, true⟩

/-- World in which `delete_file` fails. -/
def deleteFailWorld : World :=
  ⟨some "d.abc", .ok singleXformArchive, none, false⟩

/-- Witness for the amended C2 theorem at concrete worlds. -/
theorem error_handling_classes_witness :
    ((testOneInput stdExnWorld false).1 = .returns exitSuccess ∧
      Event.printed ("boom" ++ "\n") ∈ (testOneInput stdExnWorld false).2.1) ∧
    (testOneInput nullFileWorld false).1 = .procExit exitFailure ∧
    (testOneInput deleteFailWorld false).1 = .procExit exitFailure :=
  ⟨(error_handling_classes stdExnWorld false).1 "e.abc" "boom" rfl rfl rfl,
   (error_handling_classes nullFileWorld false).2.2.1 rfl,
   (error_handling_classes deleteFailWorld false).2.2.2 "d.abc"
     singleXformArchive rfl rfl rfl rfl rfl⟩

/-- C10: the top-level handler catches only `std::exception`-derived
objects; a thrown object of any other type, raised while opening or
while traversing a valid archive, propagates out of
`LLVMFuzzerTestOneInput` uncaught and `delete_file` is never called. -/
theorem foreign_exception_propagates (w : World) (s : Bool) :
    (∀ file, w.bufToFile = some file → w.openResult = .error .otherExn →
        (testOneInput w s).1 = .uncaught ∧
        deleteCount (testOneInput w s).2.1 = 0) ∧
    (∀ file ar, w.bufToFile = some file → w.openResult = .ok ar →
        ar.valid = true → w.travThrow = some .otherExn →
        (testOneInput w s).1 = .uncaught ∧
        deleteCount (testOneInput w s).2.1 = 0) := by
  constructor
  · intro file hf ho
    cases s <;>
      simp [testOneInput, hf, tryBody, printInfoRun, ho, deleteCount,
        filter_isDelete_printed, isDeleteEvent]
  · intro file ar hf ho hv ht
    cases s <;>
      simp [testOneInput, hf, tryBody, printInfoRun, ho, hv, ht, deleteCount,
        filter_isDelete_printed, isDeleteEvent]

/-- World in which the library throws a non-`std::exception` object
mid-traversal of a valid archive. -/
def travForeignExnWorld : World :=
  ⟨some "g.abc", .ok singleXformArchive, some .otherExn, true⟩

/-- Witness for the C10 theorem at a concrete world. -/
theorem foreign_exception_propagates_witness :
    (testOneInput travForeignExnWorld false).1 = .uncaught ∧
    deleteCount (testOneInput travForeignExnWorld false).2.1 = 0 :=
  (foreign_exception_propagates travForeignExnWorld false).2 "g.abc"
    singleXformArchive rfl rfl rfl rfl

/-- C8: running the inspection twice on the same input produces
identical printed content on both runs and the same outcome; the
one-time output-silencing flag is the only state carried across
invocations and never affects the printed lines. -/
theorem inspect_idempotent (w : World) (s : Bool) :
    printedOf (testOneInput w s).2.1 =
      printedOf (testOneInput w (testOneInput w s).2.2).2.1 ∧
    (testOneInput w s).1 = (testOneInput w (testOneInput w s).2.2).1 := by
  cases hb : w.bufToFile <;> cases s <;>
    simp [testOneInput, hb, printedOf, List.filterMap_append]
